import Mathlib

/-!
Verification development for the LoRA tuner core of the RM-Swift repository
(src/swift/tuners/lora.py), as a shallow embedding in Lean 4.

Modelling conventions:
- Floating point tensors are modelled over ℚ.  Two-dimensional tensors carry an
  explicit shape (rows, cols) together with a total entry function, so that the
  shape checks PyTorch performs at runtime (matmul inner dimensions, in-place
  add/sub broadcasting, view) can be modelled as `Except` failures.
- Forward passes take inputs as plain index functions (ℕ → ℚ for vectors); the
  contraction lengths come from the stored tensor shapes, as in PyTorch.
- Python attribute access on an attribute that may not exist (lora_A / lora_B /
  lora_ind are created in __init__ only under `r > 0` conditions) is modelled by
  `Option` fields read through `getAttr`, which raises `attributeError` on a
  missing attribute, exactly as torch.nn.Module.__getattr__ does.
- Fallible Python code (assert, shape errors, missing attributes,
  NotImplementedError) returns `Except PyErr`.
- Dropout: the source installs `nn.Dropout(p)` for `p > 0` and the identity
  otherwise; constructors here install the identity (the `p = 0` / eval-time
  behaviour).  The layer states keep the dropout as a function field so that
  theorems can quantify over it.
- dtype/device casts (`.to(...)`) are identities over ℚ and are not modelled.
-/

/-- Runtime errors a Python execution of the tuner core can raise. -/
inductive PyErr where
  | attributeError
  | runtimeError
  | assertionError
  | notImplementedError
deriving DecidableEq, Repr

/-- Finite sum of f 0 + ... + f (n-1), used for tensor contractions. -/
def sumTo (n : ℕ) (f : ℕ → ℚ) : ℚ :=
  (List.range n).foldr (fun i a => f i + a) 0

/-- Substring test on character lists (helper for `pyIn`). -/
def listSub (sub : List Char) : List Char → Bool
  | [] => sub.isEmpty
  | c :: cs => sub.isPrefixOf (c :: cs) || listSub sub cs

/-- Python `sub in s` on strings (substring containment). -/
def pyIn (sub s : String) : Bool := listSub sub.data s.data

/-- Python `s.endswith(t)` (raw character suffix). -/
def pyEndsWith (s t : String) : Bool := t.data.isSuffixOf s.data

/-- A 2-D tensor: a shape plus a total entry function. -/
structure Tensor where
  rows : ℕ
  cols : ℕ
  entry : ℕ → ℕ → ℚ

/-- Tensor transpose (`.T`). -/
def Tensor.transpose (t : Tensor) : Tensor :=
  ⟨t.cols, t.rows, fun i j => t.entry j i⟩

/-- Multiplication by a scalar on the right (`t * c`). -/
def Tensor.smul (t : Tensor) (c : ℚ) : Tensor :=
  ⟨t.rows, t.cols, fun i j => t.entry i j * c⟩

/-- Python `a @ b`: matrix product; RuntimeError on an inner-dimension mismatch. -/
def Tensor.matmul (a b : Tensor) : Except PyErr Tensor :=
  if a.cols = b.rows then
    .ok ⟨a.rows, b.cols, fun i j => sumTo a.cols (fun k => a.entry i k * b.entry k j)⟩
  else .error .runtimeError

/-- Python `a.data += b` (in-place add): b must broadcast to a's shape. -/
def Tensor.addInPlace (a b : Tensor) : Except PyErr Tensor :=
  if (b.rows = a.rows ∨ b.rows = 1) ∧ (b.cols = a.cols ∨ b.cols = 1) then
    .ok ⟨a.rows, a.cols, fun i j =>
      a.entry i j + b.entry (if b.rows = 1 then 0 else i) (if b.cols = 1 then 0 else j)⟩
  else .error .runtimeError

/-- Python `a.data -= b` (in-place subtract): b must broadcast to a's shape. -/
def Tensor.subInPlace (a b : Tensor) : Except PyErr Tensor :=
  if (b.rows = a.rows ∨ b.rows = 1) ∧ (b.cols = a.cols ∨ b.cols = 1) then
    .ok ⟨a.rows, a.cols, fun i j =>
      a.entry i j - b.entry (if b.rows = 1 then 0 else i) (if b.cols = 1 then 0 else j)⟩
  else .error .runtimeError

/-- An nn.Parameter: a tensor together with its requires_grad flag. -/
structure Param where
  data : Tensor
  requires_grad : Bool

/-- A 4-D nn.Parameter (convolution kernels), entries indexed
(out_channel, in_channel_within_group, kernel_row, kernel_col). -/
structure Param4 where
  data : ℕ → ℕ → ℕ → ℕ → ℚ
  requires_grad : Bool

/-- Python attribute access on an attribute created only conditionally in
__init__: reading a missing attribute raises AttributeError
(torch.nn.Module.__getattr__). -/
def getAttr {α} : Option α → Except PyErr α
  | some a => .ok a
  | none => .error .attributeError

/-- The local helper `T(w)` of lora.py: transpose when fan_in_fan_out is set. -/
def transposeIf (fan_in_fan_out : Bool) (w : Tensor) : Tensor :=
  if fan_in_fan_out then w.transpose else w

/-- F.linear(x, w, bias): o-th output is the contraction of w's o-th row with x
(contraction length = w.cols), plus the bias. -/
def linearF (x : ℕ → ℚ) (w : Tensor) (bias : Option (ℕ → ℚ)) : ℕ → ℚ :=
  fun o => sumTo w.cols (fun k => w.entry o k * x k) +
    (match bias with
     | some b => b o
     | none => 0)

/-!
Adapter layer variants (lora.py lines 403-794).

The ActivationMixin base class lives in swift/tuners/utils.py, which is not
part of the sources here.  Modelled from the spec: ActivationMixin carries a
per-layer activation boolean read through `is_activated()` (spec section 3,
"Activation Registry" / section 3 "Adapter Instance"), with initial state
unmerged-inactive at construction (spec section 4.2); execution is
single-threaded (spec section 5), so the `_unique_thread` guard in
LoRALayer.__init__ holds and merge_weights is kept as passed.  The flag is
inlined as an `activated : Bool` field of each variant's state.
-/

/-- State of the swift `Linear` LoRA layer (nn.Linear + LoRALayer). -/
structure Linear where
  in_features : ℕ
  out_features : ℕ
  weight : Param
  bias : Option (ℕ → ℚ)
  r : ℕ
  lora_alpha : ℚ
  lora_dropout : (ℕ → ℚ) → ℕ → ℚ
  fan_in_fan_out : Bool
  merge_weights : Bool
  merged : Bool
  activated : Bool
  lora_A : Option Param
  lora_B : Option Param
  scaling : ℚ

/-- Linear.__init__ (lora.py 503-533).  weightInit is the nn.Linear random
weight (shape (out_features, in_features)), kaimingA the random
reset_parameters value of lora_A; lora_B is zero-initialised by
reset_parameters.  `scaling` exists only when r > 0 in the source and is never
read otherwise; it is stored as 0 in that case. -/
def Linear.init (in_features out_features r : ℕ) (lora_alpha lora_dropoutP : ℚ)
    (fan_in_fan_out merge_weights : Bool) (weightInit : Tensor)
    (biasInit : Option (ℕ → ℚ)) (kaimingA : ℕ → ℕ → ℚ) : Linear :=
  let w0 : Param := ⟨weightInit, true⟩
  let w1 : Param := if 0 < r then { w0 with requires_grad := false } else w0
  let w2 : Param := if fan_in_fan_out then { w1 with data := w1.data.transpose } else w1
  { in_features := in_features, out_features := out_features, weight := w2,
    bias := biasInit, r := r, lora_alpha := lora_alpha,
    lora_dropout := fun x => x,
    fan_in_fan_out := fan_in_fan_out, merge_weights := merge_weights,
    merged := false, activated := false,
    lora_A := if 0 < r then some ⟨⟨r, in_features, kaimingA⟩, true⟩ else none,
    lora_B := if 0 < r then some ⟨⟨out_features, r, fun _ _ => 0⟩, true⟩ else none,
    scaling := if 0 < r then lora_alpha / r else 0 }

/-- Linear.train (lora.py 542-559): sets requires_grad on lora_A / lora_B
(AttributeError when r == 0 since the attributes were never created), then
unmerges on mode=True and merges on mode=False. -/
def Linear.train (self : Linear) (mode : Bool) : Except PyErr Linear := do
  let A ← getAttr self.lora_A
  let B ← getAttr self.lora_B
  let s := { self with lora_A := some { A with requires_grad := mode },
                       lora_B := some { B with requires_grad := mode } }
  if mode = true ∧ s.merge_weights = true ∧ s.merged = true then
    if 0 < s.r then do
      let m ← B.data.matmul A.data
      let w ← s.weight.data.subInPlace ((transposeIf s.fan_in_fan_out m).smul s.scaling)
      pure { s with weight := { s.weight with data := w }, merged := false }
    else pure { s with merged := false }
  else if mode = false ∧ s.merge_weights = true ∧ s.merged = false then
    if 0 < s.r then do
      let m ← B.data.matmul A.data
      let w ← s.weight.data.addInPlace ((transposeIf s.fan_in_fan_out m).smul s.scaling)
      pure { s with weight := { s.weight with data := w }, merged := true }
    else pure { s with merged := true }
  else pure s

/-- Linear.eval (lora.py 561-573): freezes lora_A / lora_B (AttributeError when
r == 0) and merges T(lora_B @ lora_A) * scaling into the base weight. -/
def Linear.eval (self : Linear) : Except PyErr Linear := do
  let A ← getAttr self.lora_A
  let B ← getAttr self.lora_B
  let s := { self with lora_A := some { A with requires_grad := false },
                       lora_B := some { B with requires_grad := false } }
  if s.merge_weights = true ∧ s.merged = false then
    if 0 < s.r then do
      let m ← B.data.matmul A.data
      let w ← s.weight.data.addInPlace ((transposeIf s.fan_in_fan_out m).smul s.scaling)
      pure { s with weight := { s.weight with data := w }, merged := true }
    else pure { s with merged := true }
  else pure s

/-- The base-layer path of Linear.forward (lora.py 590): F.linear on the stored
weight with the fan_in_fan_out transpose, i.e. the wrapped base layer's output
for the current stored weight. -/
def Linear.baseForward (self : Linear) (x : ℕ → ℚ) : ℕ → ℚ :=
  linearF x (transposeIf self.fan_in_fan_out self.weight.data) self.bias

/-- Linear.forward (lora.py 575-590).  Active-unmerged path adds
(dropout(x) @ lora_A.T @ lora_B.T) * scaling; dtype casts are identities. -/
def Linear.forward (self : Linear) (x : ℕ → ℚ) : Except PyErr (ℕ → ℚ) :=
  if 0 < self.r ∧ self.merged = false ∧ self.activated = true then do
    let result := linearF x (transposeIf self.fan_in_fan_out self.weight.data) self.bias
    if 0 < self.r then do
      let A ← getAttr self.lora_A
      let B ← getAttr self.lora_B
      let dx := self.lora_dropout x
      pure (fun o => result o +
        (sumTo B.data.cols (fun j =>
          (sumTo A.data.cols (fun k => dx k * A.data.entry j k)) * B.data.entry o j))
          * self.scaling)
    else pure result
  else pure (self.baseForward x)

/-- State of the swift `Embedding` LoRA layer (nn.Embedding + LoRALayer).
The host-framework embedding extras (padding_idx, max_norm, norm_type,
scale_grad_by_freq, sparse) only affect gradient bookkeeping or renormalising
modes not exercised here and are not modelled; lora_dropout is forced to 0 in
Embedding.__init__ and never used. -/
structure Embedding where
  num_embeddings : ℕ
  embedding_dim : ℕ
  weight : Param
  r : ℕ
  lora_alpha : ℚ
  merge_weights : Bool
  merged : Bool
  activated : Bool
  lora_A : Option Param
  lora_B : Option Param
  scaling : ℚ

/-- Embedding.__init__ (lora.py 429-452).  weightInit is the nn.Embedding
random weight (shape (num_embeddings, embedding_dim)); reset_parameters zeroes
lora_A and draws lora_B from a normal distribution (passed in as normalB). -/
def Embedding.init (num_embeddings embedding_dim r : ℕ) (lora_alpha : ℚ)
    (merge_weights : Bool) (weightInit : Tensor) (normalB : ℕ → ℕ → ℚ) : Embedding :=
  let w0 : Param := ⟨weightInit, true⟩
  let w1 : Param := if 0 < r then { w0 with requires_grad := false } else w0
  { num_embeddings := num_embeddings, embedding_dim := embedding_dim,
    weight := w1, r := r, lora_alpha := lora_alpha,
    merge_weights := merge_weights, merged := false, activated := false,
    lora_A := if 0 < r then some ⟨⟨r, num_embeddings, fun _ _ => 0⟩, true⟩ else none,
    lora_B := if 0 < r then some ⟨⟨embedding_dim, r, normalB⟩, true⟩ else none,
    scaling := if 0 < r then lora_alpha / r else 0 }

/-- Embedding.train (lora.py 461-476).  Unmerge (mode=True) subtracts
(lora_B @ lora_A).T * scaling; merge (mode=False) adds the same transposed
quantity. -/
def Embedding.train (self : Embedding) (mode : Bool) : Except PyErr Embedding := do
  let A ← getAttr self.lora_A
  let B ← getAttr self.lora_B
  let s := { self with lora_A := some { A with requires_grad := mode },
                       lora_B := some { B with requires_grad := mode } }
  if mode = true ∧ s.merge_weights = true ∧ s.merged = true then
    if 0 < s.r then do
      let m ← B.data.matmul A.data
      let w ← s.weight.data.subInPlace (m.transpose.smul s.scaling)
      pure { s with weight := { s.weight with data := w }, merged := false }
    else pure { s with merged := false }
  else if mode = false ∧ s.merge_weights = true ∧ s.merged = false then
    if 0 < s.r then do
      let m ← B.data.matmul A.data
      let w ← s.weight.data.addInPlace (m.transpose.smul s.scaling)
      pure { s with weight := { s.weight with data := w }, merged := true }
    else pure { s with merged := true }
  else pure s

/-- Embedding.eval (lora.py 478-486).  The merge here adds
(lora_B @ lora_A) * scaling WITHOUT the transpose that Embedding.train's merge
and unmerge branches apply (line 485 vs lines 468 and 474 of the source). -/
def Embedding.eval (self : Embedding) : Except PyErr Embedding := do
  let A ← getAttr self.lora_A
  let B ← getAttr self.lora_B
  let s := { self with lora_A := some { A with requires_grad := false },
                       lora_B := some { B with requires_grad := false } }
  if s.merge_weights = true ∧ s.merged = false then
    if 0 < s.r then do
      let m ← B.data.matmul A.data
      let w ← s.weight.data.addInPlace (m.smul s.scaling)
      pure { s with weight := { s.weight with data := w }, merged := true }
    else pure { s with merged := true }
  else pure s

/-- The base-layer path of Embedding.forward: nn.Embedding.forward, i.e. the
weight row of the token index. -/
def Embedding.baseForward (self : Embedding) (tok : ℕ) : ℕ → ℚ :=
  fun d => self.weight.data.entry tok d

/-- Embedding.forward (lora.py 488-498).  Active-unmerged path adds
(F.embedding(x, lora_A.T) @ lora_B.T) * scaling on top of the base lookup. -/
def Embedding.forward (self : Embedding) (tok : ℕ) : Except PyErr (ℕ → ℚ) :=
  if 0 < self.r ∧ self.merged = false ∧ self.activated = true then do
    let result := self.baseForward tok
    if 0 < self.r then do
      let A ← getAttr self.lora_A
      let B ← getAttr self.lora_B
      let afterA := fun j => A.data.entry j tok
      pure (fun d => result d +
        (sumTo B.data.cols (fun j => afterA j * B.data.entry d j)) * self.scaling)
    else pure result
  else pure (self.baseForward tok)

/-- Python sum(enable_lora): the number of True entries. -/
def sumEnable (enable_lora : List Bool) : ℕ := (enable_lora.filter id).length

/-- The lora_ind boolean index built in MergedLinear.__init__ (lora.py
628-631): viewed as (len(enable_lora), out_features // len(enable_lora)), the
rows of enabled groups are all-True; flattened back, position j belongs to
group j / (out_features // len(enable_lora)). -/
def mkLoraInd (enable_lora : List Bool) (out_features : ℕ) : ℕ → Bool :=
  fun j => enable_lora.getD (j / (out_features / enable_lora.length)) false

/-- Number of True positions of ind strictly below j (the rank a boolean-mask
assignment target position has among the True positions). -/
def countTrueBelow (ind : ℕ → Bool) (j : ℕ) : ℕ :=
  ((List.range j).filter ind).length

/-- MergedLinear.zero_pad (lora.py 643-649) on a 1-D input whose length is the
compressed width: scatters entry q of v to the q-th True position of ind,
zero elsewhere. -/
def zeroPadVec (ind : ℕ → Bool) (v : ℕ → ℚ) : ℕ → ℚ :=
  fun j => if ind j then v (countTrueBelow ind j) else 0

/-- Grouped F.conv1d with width-1 kernels on a 1-D channel vector (the forward
path of MergedLinear): output channel o contracts kernel row o of B with the
input-channel block of o's group. -/
def conv1dVec (B : Tensor) (v : ℕ → ℚ) (groups : ℕ) : ℕ → ℚ :=
  fun o => sumTo B.cols (fun i => B.entry o i * v ((o / (B.rows / groups)) * B.cols + i))

/-- Grouped F.conv1d with width-1 kernels on a 2-D input A (the merge path of
MergedLinear: input channels = A.rows, length = A.cols, kernel B unsqueezed to
width 1); shape conditions of torch.conv1d modelled as RuntimeError. -/
def conv1dMat (A B : Tensor) (groups : ℕ) : Except PyErr Tensor :=
  if groups = 0 then .error .runtimeError
  else if A.rows = groups * B.cols ∧ B.rows % groups = 0 then
    .ok ⟨B.rows, A.cols, fun o j =>
      sumTo B.cols (fun i => B.entry o i * A.entry ((o / (B.rows / groups)) * B.cols + i) j)⟩
  else .error .runtimeError

/-- State of the swift `MergedLinear` LoRA layer (nn.Linear + LoRALayer with a
per-group enable mask). -/
structure MergedLinear where
  in_features : ℕ
  out_features : ℕ
  enable_lora : List Bool
  weight : Param
  bias : Option (ℕ → ℚ)
  r : ℕ
  lora_alpha : ℚ
  lora_dropout : (ℕ → ℚ) → ℕ → ℚ
  fan_in_fan_out : Bool
  merge_weights : Bool
  merged : Bool
  activated : Bool
  lora_A : Option Param
  lora_B : Option Param
  lora_ind : Option (ℕ → Bool)
  scaling : ℚ

/-- MergedLinear.__init__ (lora.py 595-634).  Python raises ZeroDivisionError
for an empty enable_lora (out_features % len(...)), AssertionError when the
mask length does not divide out_features; lora_A / lora_B / lora_ind exist only
when r > 0 and some group is enabled. -/
def MergedLinear.init (in_features out_features r : ℕ) (lora_alpha lora_dropoutP : ℚ)
    (enable_lora : List Bool) (fan_in_fan_out merge_weights : Bool)
    (weightInit : Tensor) (biasInit : Option (ℕ → ℚ))
    (kaimingA : ℕ → ℕ → ℚ) : Except PyErr MergedLinear :=
  if enable_lora.length = 0 then .error .runtimeError
  else if out_features % enable_lora.length ≠ 0 then .error .assertionError
  else
    let hasL := 0 < r ∧ enable_lora.any id = true
    let w0 : Param := ⟨weightInit, true⟩
    let w1 : Param := if hasL then { w0 with requires_grad := false } else w0
    let w2 : Param := if fan_in_fan_out then { w1 with data := w1.data.transpose } else w1
    .ok { in_features := in_features, out_features := out_features,
          enable_lora := enable_lora, weight := w2, bias := biasInit, r := r,
          lora_alpha := lora_alpha, lora_dropout := fun x => x,
          fan_in_fan_out := fan_in_fan_out, merge_weights := merge_weights,
          merged := false, activated := false,
          lora_A := if hasL then
              some ⟨⟨r * sumEnable enable_lora, in_features, kaimingA⟩, true⟩
            else none,
          lora_B := if hasL then
              some ⟨⟨out_features / enable_lora.length * sumEnable enable_lora, r,
                fun _ _ => 0⟩, true⟩
            else none,
          lora_ind := if hasL then some (mkLoraInd enable_lora out_features) else none,
          scaling := if hasL then lora_alpha / r else 0 }

/-- MergedLinear.zero_pad (lora.py 643-649) on a 2-D input, with the reshape
and boolean-mask assignment shape checks PyTorch performs: x is reshaped to
(-1, compressed width) and assigned into the True columns of a zero tensor of
shape (x.rows, out_features), broadcasting over rows if needed. -/
def MergedLinear.zeroPadMat (self : MergedLinear) (ind : ℕ → Bool) (x : Tensor) :
    Except PyErr Tensor :=
  let compressed := self.out_features / self.enable_lora.length * sumEnable self.enable_lora
  let numTrue := countTrueBelow ind self.out_features
  if compressed = 0 then .error .runtimeError
  else if (x.rows * x.cols) % compressed ≠ 0 then .error .runtimeError
  else
    let rows2 := x.rows * x.cols / compressed
    if (rows2 = x.rows ∨ rows2 = 1) ∧ (compressed = numTrue ∨ compressed = 1) then
      .ok ⟨x.rows, self.out_features, fun i j =>
        if ind j then
          let p := if rows2 = 1 then 0 else i
          let q := if compressed = 1 then 0 else countTrueBelow ind j
          x.entry ((p * compressed + q) / x.cols) ((p * compressed + q) % x.cols)
        else 0⟩
    else .error .runtimeError

/-- MergedLinear.train (lora.py 651-675): requires_grad toggles on lora_A /
lora_B (AttributeError when they were never created), then the grouped conv1d
delta is zero-padded and subtracted (mode=True, unmerge) or added (mode=False,
merge) in place. -/
def MergedLinear.train (self : MergedLinear) (mode : Bool) : Except PyErr MergedLinear := do
  let A ← getAttr self.lora_A
  let B ← getAttr self.lora_B
  let s := { self with lora_A := some { A with requires_grad := mode },
                       lora_B := some { B with requires_grad := mode } }
  if mode = true ∧ s.merge_weights = true ∧ s.merged = true then
    if 0 < s.r ∧ s.enable_lora.any id = true then do
      let dw ← conv1dMat A.data B.data (sumEnable s.enable_lora)
      let ind ← getAttr s.lora_ind
      let zp ← s.zeroPadMat ind (transposeIf s.fan_in_fan_out (dw.smul s.scaling))
      let w ← s.weight.data.subInPlace zp
      pure { s with weight := { s.weight with data := w }, merged := false }
    else pure { s with merged := false }
  else if mode = false ∧ s.merge_weights = true ∧ s.merged = false then
    if 0 < s.r ∧ s.enable_lora.any id = true then do
      let dw ← conv1dMat A.data B.data (sumEnable s.enable_lora)
      let ind ← getAttr s.lora_ind
      let zp ← s.zeroPadMat ind (transposeIf s.fan_in_fan_out (dw.smul s.scaling))
      let w ← s.weight.data.addInPlace zp
      pure { s with weight := { s.weight with data := w }, merged := true }
    else pure { s with merged := true }
  else pure s

/-- MergedLinear.eval (lora.py 677-693): freeze lora_A / lora_B, then merge the
zero-padded grouped conv1d delta into the base weight. -/
def MergedLinear.eval (self : MergedLinear) : Except PyErr MergedLinear := do
  let A ← getAttr self.lora_A
  let B ← getAttr self.lora_B
  let s := { self with lora_A := some { A with requires_grad := false },
                       lora_B := some { B with requires_grad := false } }
  if s.merge_weights = true ∧ s.merged = false then
    if 0 < s.r ∧ s.enable_lora.any id = true then do
      let dw ← conv1dMat A.data B.data (sumEnable s.enable_lora)
      let ind ← getAttr s.lora_ind
      let zp ← s.zeroPadMat ind (transposeIf s.fan_in_fan_out (dw.smul s.scaling))
      let w ← s.weight.data.addInPlace zp
      pure { s with weight := { s.weight with data := w }, merged := true }
    else pure { s with merged := true }
  else pure s

/-- The base-layer path of MergedLinear.forward (lora.py 701 and 703). -/
def MergedLinear.baseForward (self : MergedLinear) (x : ℕ → ℚ) : ℕ → ℚ :=
  linearF x (transposeIf self.fan_in_fan_out self.weight.data) self.bias

/-- MergedLinear.forward (lora.py 695-714).  Merged or deactivated: base path.
Otherwise the low-rank delta F.conv1d(F.linear(dropout(x), lora_A), lora_B,
groups) is scattered to the enabled output channels by zero_pad and scaled. -/
def MergedLinear.forward (self : MergedLinear) (x : ℕ → ℚ) : Except PyErr (ℕ → ℚ) :=
  if self.merged = true ∨ self.activated = false then
    pure (self.baseForward x)
  else do
    let result := self.baseForward x
    if 0 < self.r then do
      let A ← getAttr self.lora_A
      let B ← getAttr self.lora_B
      let ind ← getAttr self.lora_ind
      let dx := self.lora_dropout x
      let afterA := fun i => sumTo A.data.cols (fun k => A.data.entry i k * dx k)
      let afterB := conv1dVec B.data afterA (sumEnable self.enable_lora)
      pure (fun o => result o + zeroPadVec ind afterB o * self.scaling)
    else pure result

/-- A Python kernel_size argument: a plain int or a per-axis pair (the form
torch.nn.Conv2d stores in its kernel_size attribute). -/
inductive KernelArg where
  | int (k : ℕ)
  | pair (k1 k2 : ℕ)

/-- State of the swift `Conv2d` LoRA layer (nn.Conv2d + LoRALayer).  The kernel
weight is 4-D with shape (out_channels, in_channels / groups, kernel_size,
kernel_size); lora_dropout is stored but never used by Conv2d.forward. -/
structure Conv2d where
  in_channels : ℕ
  out_channels : ℕ
  kernel_size : ℕ
  stride : ℕ
  padding : ℕ
  dilation : ℕ
  groups : ℕ
  weight : Param4
  bias : Option (ℕ → ℚ)
  r : ℕ
  lora_alpha : ℚ
  merge_weights : Bool
  merged : Bool
  activated : Bool
  lora_A : Option Param
  lora_B : Option Param
  scaling : ℚ

/-- Conv2d.__init__ (lora.py 719-748): asserts the kernel size is a plain int
(AssertionError on the tuple form); lora_A has shape
(r * kernel_size, in_channels * kernel_size) and lora_B
(out_channels * kernel_size, r * kernel_size) when r > 0. -/
def Conv2d.init (in_channels out_channels : ℕ) (kernel : KernelArg) (r : ℕ)
    (lora_alpha lora_dropoutP : ℚ) (merge_weights : Bool)
    (stride padding dilation groups : ℕ) (weightInit : ℕ → ℕ → ℕ → ℕ → ℚ)
    (biasInit : Option (ℕ → ℚ)) (kaimingA : ℕ → ℕ → ℚ) : Except PyErr Conv2d :=
  match kernel with
  | .pair _ _ => .error .assertionError
  | .int k =>
    .ok { in_channels := in_channels, out_channels := out_channels,
          kernel_size := k, stride := stride, padding := padding,
          dilation := dilation, groups := groups,
          weight := ⟨weightInit, !(0 < r)⟩, bias := biasInit, r := r,
          lora_alpha := lora_alpha, merge_weights := merge_weights,
          merged := false, activated := false,
          lora_A := if 0 < r then
              some ⟨⟨r * k, in_channels * k, kaimingA⟩, true⟩
            else none,
          lora_B := if 0 < r then
              some ⟨⟨out_channels * k, r * k, fun _ _ => 0⟩, true⟩
            else none,
          scaling := if 0 < r then lora_alpha / r else 0 }

/-- Python `m.view(self.weight.shape)` for the 2-D product lora_B @ lora_A
reshaped into the 4-D kernel shape (row-major flat index), with torch's
element-count check. -/
def Conv2d.viewAsWeight (self : Conv2d) (m : Tensor) :
    Except PyErr (ℕ → ℕ → ℕ → ℕ → ℚ) :=
  if m.rows * m.cols =
      self.out_channels * (self.in_channels / self.groups) *
        self.kernel_size * self.kernel_size then
    .ok (fun o ci a b =>
      let f := ((o * (self.in_channels / self.groups) + ci) * self.kernel_size + a)
                 * self.kernel_size + b
      m.entry (f / m.cols) (f % m.cols))
  else .error .runtimeError

/-- Conv2d.train (lora.py 757-769): requires_grad toggles (AttributeError when
r == 0), then the reshaped lora_B @ lora_A delta is subtracted (mode=True) or
added (mode=False); the source has no `r > 0` guard inside these branches. -/
def Conv2d.train (self : Conv2d) (mode : Bool) : Except PyErr Conv2d := do
  let A ← getAttr self.lora_A
  let B ← getAttr self.lora_B
  let s := { self with lora_A := some { A with requires_grad := mode },
                       lora_B := some { B with requires_grad := mode } }
  if mode = true ∧ s.merge_weights = true ∧ s.merged = true then do
    let m ← B.data.matmul A.data
    let d4 ← s.viewAsWeight m
    pure { s with
      weight := { s.weight with
        data := fun o ci a b => s.weight.data o ci a b - d4 o ci a b * s.scaling },
      merged := false }
  else if mode = false ∧ s.merge_weights = true ∧ s.merged = false then do
    let m ← B.data.matmul A.data
    let d4 ← s.viewAsWeight m
    pure { s with
      weight := { s.weight with
        data := fun o ci a b => s.weight.data o ci a b + d4 o ci a b * s.scaling },
      merged := true }
  else pure s

/-- Conv2d.eval (lora.py 771-779): freeze lora_A / lora_B, then merge the
reshaped delta into the kernel. -/
def Conv2d.eval (self : Conv2d) : Except PyErr Conv2d := do
  let A ← getAttr self.lora_A
  let B ← getAttr self.lora_B
  let s := { self with lora_A := some { A with requires_grad := false },
                       lora_B := some { B with requires_grad := false } }
  if s.merge_weights = true ∧ s.merged = false then do
    let m ← B.data.matmul A.data
    let d4 ← s.viewAsWeight m
    pure { s with
      weight := { s.weight with
        data := fun o ci a b => s.weight.data o ci a b + d4 o ci a b * s.scaling },
      merged := true }
  else pure s

/-- Pixel access into a zero-padded H x W image plane (channel c), zero outside
the spatial bounds. -/
def pixAt (x : ℕ → ℕ → ℕ → ℚ) (H W : ℕ) (c : ℕ) (i j : ℤ) : ℚ :=
  if 0 ≤ i ∧ i < (H : ℤ) ∧ 0 ≤ j ∧ j < (W : ℤ) then x c i.toNat j.toNat else 0

/-- F.conv2d with a square kernel on one H x W image (channels, rows, cols),
with stride / zero-padding / dilation / groups. -/
def conv2dF (w : ℕ → ℕ → ℕ → ℕ → ℚ) (bias : Option (ℕ → ℚ))
    (in_channels out_channels kernel_size stride padding dilation groups : ℕ)
    (H W : ℕ) (x : ℕ → ℕ → ℕ → ℚ) : ℕ → ℕ → ℕ → ℚ :=
  fun co p q =>
    (match bias with
     | some b => b co
     | none => 0) +
    sumTo (in_channels / groups) (fun ci =>
      sumTo kernel_size (fun a =>
        sumTo kernel_size (fun b2 =>
          w co ci a b2 *
            pixAt x H W
              ((co / (out_channels / groups)) * (in_channels / groups) + ci)
              ((p * stride + a * dilation : ℤ) - (padding : ℤ))
              ((q * stride + b2 * dilation : ℤ) - (padding : ℤ)))))

/-- The base-layer path of Conv2d.forward (lora.py 793): nn.Conv2d.forward on
the stored kernel. -/
def Conv2d.baseForward (self : Conv2d) (H W : ℕ) (x : ℕ → ℕ → ℕ → ℚ) : ℕ → ℕ → ℕ → ℚ :=
  conv2dF self.weight.data self.bias self.in_channels self.out_channels
    self.kernel_size self.stride self.padding self.dilation self.groups H W x

/-- Conv2d.forward (lora.py 781-793).  Active-unmerged with r > 0: convolve
with weight + (lora_B @ lora_A).view(weight.shape) * scaling; otherwise the
plain base convolution. -/
def Conv2d.forward (self : Conv2d) (H W : ℕ) (x : ℕ → ℕ → ℕ → ℚ) :
    Except PyErr (ℕ → ℕ → ℕ → ℚ) :=
  if 0 < self.r ∧ self.merged = false ∧ self.activated = true then do
    let A ← getAttr self.lora_A
    let B ← getAttr self.lora_B
    let m ← B.data.matmul A.data
    let d4 ← self.viewAsWeight m
    pure (conv2dF
      (fun o ci a b => self.weight.data o ci a b + d4 o ci a b * self.scaling)
      self.bias self.in_channels self.out_channels self.kernel_size self.stride
      self.padding self.dilation self.groups H W x)
  else pure (self.baseForward H W x)

/-!
Patch engine, unpatch engine and state-dict filter (lora.py 103-401, 815-842).
The module graph is modelled as the ordered list of named base-layer nodes the
host framework exposes through named_modules(); adapter modules attached under
a loramodule_<name> slot are reachable in the host framework as child modules
at path <node>.loramodule_<name>, but no selector used in the claims matches
such child paths, so the key walk ranges over the base nodes.  A Python-level
exception aborts the walk; the per-node mutations already applied before the
failure are not observable through the Except model (no claim inspects a
partially patched graph).
-/

/-- The runtime kind and construction data of a host module-graph node. -/
inductive NodeKind where
  | linear (in_features out_features : ℕ)
  | embedding (num_embeddings embedding_dim : ℕ)
  | conv2d (in_channels out_channels : ℕ) (kernel : KernelArg)
      (stride padding dilation groups : ℕ)
  | other

/-- An adapter module constructed by the patch engine. -/
inductive LoraModule where
  | lin (m : Linear)
  | mrg (m : MergedLinear)
  | emb (m : Embedding)
  | conv (m : Conv2d)

/-- A module-graph node: its base-layer kind, its (2-D) weight tensor and
requires_grad flag, its 4-D kernel when it is a convolution, its optional bias,
the attached adapter slots (loramodule_<name> attributes, in attachment order)
and whether the dispatching forward wrapper is installed (forward_origin). -/
structure PNode where
  kind : NodeKind
  weight : Tensor
  weight_requires_grad : Bool
  weight4 : ℕ → ℕ → ℕ → ℕ → ℚ
  bias : Option (ℕ → ℚ)
  slots : List (String × LoraModule)
  wrapped : Bool

/-- A module graph: named_modules() order of (path, node). -/
def Graph := List (String × PNode)

/-- The keyword arguments `prepare_model` forwards to `_dynamic_patch_lora`
from a LoRAConfig (lora.py 166-176). -/
structure PatchKwargs where
  r : ℕ
  lora_alpha : ℚ
  lora_dropout : ℚ
  merge_weights : Bool
  enable_lora : Option (List Bool)
  fan_in_fan_out : Bool

/-- The list-selector match of `_dynamic_patch_lora` and `unpatch_lora`
(lora.py 221-223 and 355-357): `any(module_key.endswith(target_key) for
target_key in replace_modules)` - a raw character suffix test. -/
def targetModuleFound (module_key : String) (replace_modules : List String) : Bool :=
  replace_modules.any (fun target_key => pyEndsWith module_key target_key)

/-- The slot attribute name `loramodule_{adapter_name}` (lora.py 326). -/
def loramoduleName (adapter_name : String) : String :=
  "loramodule_" ++ adapter_name

/-- Python setattr on a module attribute dict: replaces the value under an
existing key in place, appends a fresh key. -/
def setSlot (slots : List (String × LoraModule)) (name : String) (m : LoraModule) :
    List (String × LoraModule) :=
  if slots.any (fun kv => kv.1 = name) then
    slots.map (fun kv => if kv.1 = name then (name, m) else kv)
  else slots ++ [(name, m)]

/-- The weight / bias reference copy of lora.py 320-322: the constructed
adapter's weight and bias are replaced by the wrapped node's own parameters
(the freshly initialised ones from __init__ are discarded). -/
def LoraModule.takeWeight (m : LoraModule) (node : PNode) : LoraModule :=
  match m with
  | .lin s => .lin { s with
      weight := ⟨node.weight, node.weight_requires_grad⟩,
      bias := if node.bias.isSome then node.bias else s.bias }
  | .mrg s => .mrg { s with
      weight := ⟨node.weight, node.weight_requires_grad⟩,
      bias := if node.bias.isSome then node.bias else s.bias }
  | .emb s => .emb { s with
      weight := ⟨node.weight, node.weight_requires_grad⟩ }
  | .conv s => .conv { s with
      weight := ⟨node.weight4, node.weight_requires_grad⟩,
      bias := if node.bias.isSome then node.bias else s.bias }

/-- Construction of the adapter module for one matched node
(lora.py 227-311): dispatch on the node's runtime kind.  The quantized
branches (8-bit / 4-bit / GPTQ) require quantization state absent from plain
graphs and are not modelled; `entropy` supplies the randomly drawn
reset_parameters factor (kaiming lora_A for the dense variants, normal lora_B
for the embedding variant). -/
def buildLoraModule (node : PNode) (use_merged_linear : Bool) (kw : PatchKwargs)
    (entropy : ℕ → ℕ → ℚ) : Except PyErr (Option LoraModule) :=
  match node.kind with
  | .linear in_features out_features =>
    if use_merged_linear then
      match kw.enable_lora with
      | some el =>
        (MergedLinear.init in_features out_features kw.r kw.lora_alpha
          kw.lora_dropout el kw.fan_in_fan_out kw.merge_weights node.weight
          node.bias entropy).map (fun m => some (.mrg m))
      | none => .error .runtimeError
    else
      .ok (some (.lin (Linear.init in_features out_features kw.r kw.lora_alpha
        kw.lora_dropout kw.fan_in_fan_out kw.merge_weights node.weight
        node.bias entropy)))
  | .embedding num_embeddings embedding_dim =>
    .ok (some (.emb (Embedding.init num_embeddings embedding_dim kw.r
      kw.lora_alpha kw.merge_weights node.weight entropy)))
  | .conv2d in_channels out_channels kernel stride padding dilation groups =>
    (Conv2d.init in_channels out_channels kernel kw.r kw.lora_alpha
      kw.lora_dropout kw.merge_weights stride padding dilation groups
      node.weight4 node.bias entropy).map (fun m => some (.conv m))
  | .other => .ok none

/-- LoRA._dynamic_patch_lora (lora.py 196-333) for a list selector: walk the
module keys, build an adapter for each match, copy the node's weight / bias
references into it, attach it with setattr under loramodule_<adapter_name>
(silently replacing an existing slot of the same name) and install the
dispatching forward wrapper once. -/
def dynamicPatchLora (model : Graph) (replace_modules : List String)
    (use_merged_linear : Bool) (adapter_name : String) (kw : PatchKwargs)
    (entropy : String → ℕ → ℕ → ℚ) : Except PyErr Graph :=
  let rec go : List (String × PNode) → Except PyErr (List (String × PNode))
    | [] => .ok []
    | (module_key, node) :: rest => do
      let kn ←
        if targetModuleFound module_key replace_modules then do
          let lm ← buildLoraModule node use_merged_linear kw (entropy module_key)
          match lm with
          | none => pure (module_key, node)
          | some m =>
            pure (module_key,
              { node with
                slots := setSlot node.slots (loramoduleName adapter_name)
                  (m.takeWeight node),
                wrapped := true })
        else pure (module_key, node)
      let rest2 ← go rest
      pure (kn :: rest2)
  go model

/-- The LoRAConfig dataclass (lora.py 103-158): its complete field list. -/
structure LoRAConfig where
  r : ℕ
  target_modules : Option (List String)
  lora_alpha : ℚ
  lora_dropout : ℚ
  merge_weights : Bool
  use_merged_linear : Bool
  enable_lora : Option (List Bool)
  fan_in_fan_out : Bool
  bias : String

/-- A value read off a LoRAConfig attribute. -/
inductive AttrVal where
  | natV (n : ℕ)
  | ratV (q : ℚ)
  | boolV (b : Bool)
  | strV (s : String)
  | strListV (l : Option (List String))
  | boolListV (l : Option (List Bool))

/-- Python attribute lookup on a LoRAConfig instance: exactly the dataclass
fields resolve; any other name is a missing attribute (none). -/
def LoRAConfig.getattr (c : LoRAConfig) : String → Option AttrVal
  | "r" => some (.natV c.r)
  | "target_modules" => some (.strListV c.target_modules)
  | "lora_alpha" => some (.ratV c.lora_alpha)
  | "lora_dropout" => some (.ratV c.lora_dropout)
  | "merge_weights" => some (.boolV c.merge_weights)
  | "use_merged_linear" => some (.boolV c.use_merged_linear)
  | "enable_lora" => some (.boolListV c.enable_lora)
  | "fan_in_fan_out" => some (.boolV c.fan_in_fan_out)
  | "bias" => some (.strV c.bias)
  | _ => none

/-- The body of LoRA.unpatch_lora after the selector is read (lora.py
351-400): walk the keys, and for each match rebuild a plain layer when the
sub-module is an instance of the swift Linear / Embedding / Conv2d classes.
Patching attaches adapters under a slot and never replaces the node object, so
a matched base node is not such an instance: origin_module stays None and the
node is left unchanged. -/
def unpatchCore (model : Graph) (replace_modules : List String) : Graph :=
  model.map (fun kn => if targetModuleFound kn.1 replace_modules then kn else kn)

/-- LoRA.unpatch_lora (lora.py 335-400): reads `config.replace_modules`, an
attribute the LoRAConfig dataclass does not define, before anything else. -/
def unpatchLora (model : Graph) (config : LoRAConfig) : Except PyErr Graph :=
  match config.getattr "replace_modules" with
  | none => .error .attributeError
  | some (.strListV (some replace_modules)) => .ok (unpatchCore model replace_modules)
  | some _ => .error .assertionError

/-- Python dict lookup on an association list (insertion-ordered, unique keys). -/
def dictFind {α} (d : List (String × α)) (k : String) : Option α :=
  (d.find? (fun kv => kv.1 = k)).map (fun kv => kv.2)

/-- Python dict item assignment: overwrite in place when the key exists,
append otherwise. -/
def dictInsert {α} (d : List (String × α)) (k : String) (v : α) : List (String × α) :=
  if d.any (fun kv => kv.1 = k) then
    d.map (fun kv => if kv.1 = k then (k, v) else kv)
  else d ++ [(k, v)]

/-- The accumulation loop of the bias == lora_only branch of lora_state_dict
(lora.py 831-839): keep each adapter parameter, and also the sibling bias named
by the part of the key before the first occurrence of the marker plus the word
for a bias, when that key is present. -/
def loraOnlyLoop {α} (state_dict : List (String × α)) (adapter_name : String) :
    List (String × α) :=
  state_dict.foldl (fun to_return kv =>
    if pyIn (loramoduleName adapter_name) kv.1 && pyIn "lora_" kv.1 then
      let acc := dictInsert to_return kv.1 kv.2
      let bias_name := ((kv.1.splitOn "lora_").headD "") ++ "bias"
      match dictFind state_dict bias_name with
      | some bv => dictInsert acc bias_name bv
      | none => acc
    else to_return) []

/-- lora_state_dict (lora.py 815-842): the state-dict filter, keyed by the bias
policy string; an unknown policy raises NotImplementedError. -/
def lora_state_dict {α} (state_dict : List (String × α)) (adapter_name : String)
    (bias : String) : Except PyErr (List (String × α)) :=
  match bias with
  | "none" =>
    .ok (state_dict.filter (fun kv =>
      pyIn (loramoduleName adapter_name) kv.1 && pyIn "lora_" kv.1))
  | "all" =>
    .ok (state_dict.filter (fun kv =>
      (pyIn "lora_" kv.1 && pyIn (loramoduleName adapter_name) kv.1) ||
      (pyIn "bias" kv.1 && !(pyIn (loramoduleName adapter_name) kv.1))))
  | "lora_only" => .ok (loraOnlyLoop state_dict adapter_name)
  | _ => .error .notImplementedError

/-- Modelled from the spec for the refinement comparison of the Module Locator
claim: a selector element matches only as an exact trailing dot-separated path
token, i.e. the element equals the whole path or the path ends in a dot
followed by the element. -/
def specTokenSuffixMatch (module_key : String) (replace_modules : List String) : Bool :=
  replace_modules.any (fun t => module_key = t || pyEndsWith module_key ("." ++ t))

/-!
Claims.
-/

/-- C2.  Patching a model with a LoRAConfig and then calling LoRA.unpatch_lora
with the same config cannot restore anything: unpatch_lora's first real
statement reads `config.replace_modules` (lora.py 348), an attribute the
LoRAConfig dataclass does not define (its selector field is target_modules),
so every unpatch call on a LoRAConfig raises AttributeError before touching
the graph - for every model graph and every config value. -/
theorem c2_unpatch_lora_raises_attribute_error (model : Graph) (config : LoRAConfig) :
    unpatchLora model config = .error .attributeError := rfl

/-- C4 counterexample.  The claim says a list selector matches only an exact
trailing path token, so that selector element q_proj must not match a path
ending in the raw characters xq_proj; but the patch/unpatch matcher
(str.endswith, lora.py 221-223) does match encoder.layer.0.xq_proj against
selector [q_proj], while the spec-side exact-token matcher does not. -/
theorem c4_raw_suffix_match_counterexample :
    targetModuleFound "encoder.layer.0.xq_proj" ["q_proj"] = true ∧
    specTokenSuffixMatch "encoder.layer.0.xq_proj" ["q_proj"] = false := by
  constructor <;> decide

/-- C4 amended.  The Module Locator's list selector matches by raw character
suffix (str.endswith), so selector element q_proj does match a path ending in
xq_proj; on the claim's concrete scenario the matched set is nevertheless
exactly [encoder.layer.0.q_proj], because k_proj_aux does not end in the
characters q_proj. -/
theorem c4_endswith_selector_semantics :
    (["encoder.layer.0.q_proj", "encoder.layer.0.k_proj_aux"].filter
      (fun module_key => targetModuleFound module_key ["q_proj"]))
      = ["encoder.layer.0.q_proj"] ∧
    targetModuleFound "encoder.layer.0.xq_proj" ["q_proj"] = true := by
  constructor <;> decide

/-- C6 counterexample.  On the claim's literal parameter map, whose keys use
the adapter slot marker adapter_default, lora_state_dict with
bias_policy none and adapter_name default returns the empty map, not the two
lora keys: the filter (lora.py 818-823) requires the marker
loramodule_default, which none of those keys contain. -/
theorem c6_spec_marker_keys_filtered_out :
    lora_state_dict
      [("layer.adapter_default.lora_A", (1 : ℚ)),
       ("layer.adapter_default.lora_B", 2),
       ("layer.bias", 3)] "default" "none" = .ok [] := rfl

/-- C6 amended.  With the source's actual slot marker loramodule_default in
the keys, lora_state_dict with bias_policy none returns exactly the two
low-rank factor entries and drops the bias entry. -/
theorem c6_loramodule_marker_keys_kept :
    lora_state_dict
      [("layer.loramodule_default.lora_A", (1 : ℚ)),
       ("layer.loramodule_default.lora_B", 2),
       ("layer.bias", 3)] "default" "none"
      = .ok [("layer.loramodule_default.lora_A", 1),
             ("layer.loramodule_default.lora_B", 2)] := rfl

/-- Concrete lora_A for the C1 failing input: shape (r, num_embeddings) =
(1, 2), value [[1, 0]]. -/
def c1loraA : Param := ⟨⟨1, 2, fun _ j => if j = 0 then 1 else 0⟩, true⟩

/-- Concrete lora_B for the C1 failing input: shape (embedding_dim, r) =
(2, 1), value [[0], [1]], so lora_B @ lora_A = [[0, 0], [1, 0]] is not
symmetric. -/
def c1loraB : Param := ⟨⟨2, 1, fun i _ => if i = 0 then 0 else 1⟩, true⟩

/-- An Embedding adapter (after some training of the factors) about to merge:
num_embeddings = embedding_dim = 2, r = 1, scaling = 1, base weight zero,
unmerged, merge_weights on. -/
def c1emb : Embedding :=
  { num_embeddings := 2, embedding_dim := 2,
    weight := ⟨⟨2, 2, fun _ _ => 0⟩, false⟩, r := 1, lora_alpha := 1,
    merge_weights := true, merged := false, activated := true,
    lora_A := some c1loraA, lora_B := some c1loraB, scaling := 1 }

/-- C1 (code bug, demonstration).  Merging the Embedding adapter through
eval() and then unmerging through train(True), with no parameter update in
between, does NOT restore the base weight: starting from the zero weight the
round trip ends at weight[0][1] = -1 and weight[1][0] = 1.  Embedding.eval
merges `weight += (lora_B @ lora_A) * scaling` without the transpose
(lora.py 485) while Embedding.train unmerges
`weight -= (lora_B @ lora_A).T * scaling` (lora.py 468), so the unmerge
subtracts a different quantity than the merge added; the round trip perturbs
the weight by ((B@A) - (B@A).T) * scaling (and for num_embeddings distinct
from embedding_dim the eval-merge is a shape error outright).  Linear,
MergedLinear and Conv2d use the same expression in both directions. -/
theorem c1_embedding_eval_merge_not_inverted_by_unmerge :
    (c1emb.eval >>= fun s1 => s1.train true).map
        (fun s2 => (s2.weight.data.entry 0 1, s2.weight.data.entry 1 0))
      = .ok (-1, 1) ∧
    c1emb.weight.data.entry 0 1 = 0 ∧ c1emb.weight.data.entry 1 0 = 0 := by
  refine ⟨?_, rfl, rfl⟩
  norm_num [c1emb, c1loraA, c1loraB, Embedding.eval, Embedding.train, getAttr,
    Tensor.matmul, Tensor.addInPlace, Tensor.subInPlace, Tensor.transpose,
    Tensor.smul, sumTo, List.range_succ, Except.map, Except.bind, bind, pure,
    Except.pure]

/-- C5 counterexample.  A bias parameter whose name lies inside the adapter
slot (layer.loramodule_default.bias) is dropped by lora_state_dict with
bias policy all and adapter_name default, although the claim says every
bias-marked parameter is returned regardless of its position: the all-branch
(lora.py 824-830) keeps a bias key only when loramodule_default is NOT in it. -/
theorem c5_slot_bias_excluded_counterexample :
    lora_state_dict [("layer.loramodule_default.bias", (1 : ℚ))] "default" "all"
        = .ok [] ∧
    pyIn "bias" "layer.loramodule_default.bias" = true := by
  exact ⟨rfl, by decide⟩

/-- C5 amended.  With bias policy all, lora_state_dict returns exactly the
entries whose key has both the lora_ marker and the adapter slot marker, plus
the entries whose key has the bias marker and does NOT contain the adapter
slot marker; bias parameters inside the adapter slot are excluded. -/
theorem c5_all_policy_membership {α} (state_dict : List (String × α))
    (adapter_name k : String) (v : α) (res : List (String × α))
    (h : lora_state_dict state_dict adapter_name "all" = .ok res) :
    (k, v) ∈ res ↔
      ((k, v) ∈ state_dict ∧
        ((pyIn "lora_" k = true ∧ pyIn (loramoduleName adapter_name) k = true) ∨
         (pyIn "bias" k = true ∧ pyIn (loramoduleName adapter_name) k = false))) := by
  simp only [lora_state_dict] at h
  cases h
  simp [List.mem_filter, Bool.and_eq_true, Bool.or_eq_true, Bool.not_eq_true']

/-- Parameter map for the C5 witness: one adapter factor, one outside bias,
one bias inside the adapter slot. -/
def c5sd : List (String × ℤ) :=
  [("x.loramodule_a.lora_A", 0), ("x.bias", 1), ("x.loramodule_a.bias", 2)]

/-- Witness for the C5 amended theorem at a concrete map and key. -/
theorem c5_all_policy_membership_witness :
    ("x.bias", (1 : ℤ)) ∈ [("x.loramodule_a.lora_A", (0 : ℤ)), ("x.bias", 1)] ↔
      (("x.bias", (1 : ℤ)) ∈ c5sd ∧
        ((pyIn "lora_" "x.bias" = true ∧ pyIn (loramoduleName "a") "x.bias" = true) ∨
         (pyIn "bias" "x.bias" = true ∧ pyIn (loramoduleName "a") "x.bias" = false))) :=
  c5_all_policy_membership c5sd "a" "x.bias" 1 _ rfl

/-- A plain dense node for the C3 scenario: a 2 x 2 linear layer at path
model.fc with no adapter slots yet. -/
def c3node : PNode :=
  { kind := .linear 2 2, weight := ⟨2, 2, fun _ _ => 0⟩,
    weight_requires_grad := true, weight4 := fun _ _ _ _ => 0, bias := none,
    slots := [], wrapped := false }

/-- The patch kwargs LoRA.prepare_model forwards for a plain (non-merged)
dense adapter of rank 4. -/
def c3kw : PatchKwargs :=
  { r := 4, lora_alpha := 1, lora_dropout := 0, merge_weights := true,
    enable_lora := none, fan_in_fan_out := false }

/-- C3 counterexample.  Patching the one-node graph [model.fc] with adapter
name default and then patching it a second time with the same adapter name
completes without any error - the claim says the second call must raise a
configuration error.  The attach step (lora.py 319-331) performs a plain
setattr with no existing-slot check. -/
theorem c3_second_patch_call_completes :
    ((dynamicPatchLora [("model.fc", c3node)] ["fc"] false "default" c3kw
        (fun _ _ _ => 0)).bind
      (fun g1 => dynamicPatchLora g1 ["fc"] false "default" c3kw
        (fun _ _ _ => 0))).isOk = true := by
  rfl

/-- C3 amended.  A second patch call with the same adapter name on an
already-patched node completes without error and silently replaces the
existing adapter slot in place: the node still carries exactly one slot named
loramodule_default afterwards (Python setattr overwrite semantics). -/
theorem c3_second_patch_overwrites_slot :
    ∃ g2,
      (dynamicPatchLora [("model.fc", c3node)] ["fc"] false "default" c3kw
          (fun _ _ _ => 0)).bind
        (fun g1 => dynamicPatchLora g1 ["fc"] false "default" c3kw
          (fun _ _ _ => 0)) = .ok g2 ∧
      g2.map (fun kn => (kn.1, kn.2.slots.map (fun sl => sl.1)))
        = [("model.fc", ["loramodule_default"])] :=
  ⟨_, rfl, rfl⟩

/-- C7.  Every adapter variant constructed with r == 0 computes exactly the
wrapped base layer's forward output, whatever the activation and merge flags
are (in particular in both the activated and deactivated states): with r == 0
the low-rank branch of forward is never taken. -/
theorem c7_zero_rank_forward_is_base :
    (∀ (s : Linear) (x : ℕ → ℚ), s.r = 0 →
      s.forward x = .ok (s.baseForward x)) ∧
    (∀ (s : Embedding) (tok : ℕ), s.r = 0 →
      s.forward tok = .ok (s.baseForward tok)) ∧
    (∀ (s : MergedLinear) (x : ℕ → ℚ), s.r = 0 →
      s.forward x = .ok (s.baseForward x)) ∧
    (∀ (s : Conv2d) (H W : ℕ) (x : ℕ → ℕ → ℕ → ℚ), s.r = 0 →
      s.forward H W x = .ok (s.baseForward H W x)) := by
  refine ⟨?_, ?_, ?_, ?_⟩
  · intro s x hr
    simp [Linear.forward, hr, pure, Except.pure]
  · intro s tok hr
    simp [Embedding.forward, hr, pure, Except.pure]
  · intro s x hr
    by_cases h : s.merged = true ∨ s.activated = false
    · rw [MergedLinear.forward, if_pos h]
      rfl
    · rw [MergedLinear.forward, if_neg h]
      simp [hr, pure, Except.pure]
  · intro s H W x hr
    simp [Conv2d.forward, hr, pure, Except.pure]

/-- Concrete r == 0 adapter states for the C7 witness. -/
def c7lin : Linear :=
  { in_features := 1, out_features := 1, weight := ⟨⟨1, 1, fun _ _ => 2⟩, true⟩,
    bias := none, r := 0, lora_alpha := 1, lora_dropout := fun x => x,
    fan_in_fan_out := false, merge_weights := true, merged := false,
    activated := true, lora_A := none, lora_B := none, scaling := 0 }

/-- Witness for C7 at a concrete zero-rank Linear adapter and input. -/
theorem c7_zero_rank_forward_is_base_witness :
    c7lin.forward (fun _ => 3) = .ok (c7lin.baseForward (fun _ => 3)) :=
  c7_zero_rank_forward_is_base.1 c7lin (fun _ => 3) rfl

/-- C8.  For every adapter variant, a deactivated adapter (whatever its merge
state) and a merged adapter both compute exactly the base layer's forward on
the currently stored (possibly already-updated) weight: the low-rank branch of
forward requires unmerged AND activated. -/
theorem c8_merged_or_inactive_forward_is_base :
    (∀ (s : Linear) (x : ℕ → ℚ), s.merged = true ∨ s.activated = false →
      s.forward x = .ok (s.baseForward x)) ∧
    (∀ (s : Embedding) (tok : ℕ), s.merged = true ∨ s.activated = false →
      s.forward tok = .ok (s.baseForward tok)) ∧
    (∀ (s : MergedLinear) (x : ℕ → ℚ), s.merged = true ∨ s.activated = false →
      s.forward x = .ok (s.baseForward x)) ∧
    (∀ (s : Conv2d) (H W : ℕ) (x : ℕ → ℕ → ℕ → ℚ),
      s.merged = true ∨ s.activated = false →
      s.forward H W x = .ok (s.baseForward H W x)) := by
  refine ⟨?_, ?_, ?_, ?_⟩
  · intro s x h
    rcases h with h | h <;> simp [Linear.forward, h, pure, Except.pure]
  · intro s tok h
    rcases h with h | h <;> simp [Embedding.forward, h, pure, Except.pure]
  · intro s x h
    rw [MergedLinear.forward, if_pos h]
    rfl
  · intro s H W x h
    rcases h with h | h <;> simp [Conv2d.forward, h, pure, Except.pure]

/-- Concrete merged adapter state for the C8 witness. -/
def c8emb : Embedding :=
  { num_embeddings := 2, embedding_dim := 2,
    weight := ⟨⟨2, 2, fun i j => if i = j then 1 else 0⟩, false⟩, r := 1,
    lora_alpha := 1, merge_weights := true, merged := true, activated := true,
    lora_A := some ⟨⟨1, 2, fun _ _ => 1⟩, false⟩,
    lora_B := some ⟨⟨2, 1, fun _ _ => 1⟩, false⟩, scaling := 1 }

/-- Witness for C8 at a concrete merged Embedding adapter. -/
theorem c8_merged_or_inactive_forward_is_base_witness :
    c8emb.forward 0 = .ok (c8emb.baseForward 0) :=
  c8_merged_or_inactive_forward_is_base.2.1 c8emb 0 (Or.inl rfl)

/-- C10.  For every adapter variant constructed with r == 0, both train(mode)
and eval() raise AttributeError: the mode toggles unconditionally assign
requires_grad on lora_A / lora_B, which __init__ creates only when r > 0 (for
MergedLinear, only when additionally some group is enabled); only forward is a
total pass-through for a zero-rank adapter (see the C7 theorem). -/
theorem c10_zero_rank_train_eval_attribute_error :
    (∀ (inF outF : ℕ) (alpha dropP : ℚ) (fifo mw : Bool) (w : Tensor)
        (b : Option (ℕ → ℚ)) (ka : ℕ → ℕ → ℚ) (mode : Bool),
      (Linear.init inF outF 0 alpha dropP fifo mw w b ka).train mode
          = .error .attributeError ∧
      (Linear.init inF outF 0 alpha dropP fifo mw w b ka).eval
          = .error .attributeError) ∧
    (∀ (n d : ℕ) (alpha : ℚ) (mw : Bool) (w : Tensor) (nb : ℕ → ℕ → ℚ)
        (mode : Bool),
      (Embedding.init n d 0 alpha mw w nb).train mode = .error .attributeError ∧
      (Embedding.init n d 0 alpha mw w nb).eval = .error .attributeError) ∧
    (∀ (inF outF : ℕ) (alpha dropP : ℚ) (el : List Bool) (fifo mw : Bool)
        (w : Tensor) (b : Option (ℕ → ℚ)) (ka : ℕ → ℕ → ℚ) (s : MergedLinear)
        (mode : Bool),
      MergedLinear.init inF outF 0 alpha dropP el fifo mw w b ka = .ok s →
      s.train mode = .error .attributeError ∧
      s.eval = .error .attributeError) ∧
    (∀ (ic oc : ℕ) (kern : KernelArg) (alpha dropP : ℚ) (mw : Bool)
        (st pd dl gp : ℕ) (w4 : ℕ → ℕ → ℕ → ℕ → ℚ) (b : Option (ℕ → ℚ))
        (ka : ℕ → ℕ → ℚ) (s : Conv2d) (mode : Bool),
      Conv2d.init ic oc kern 0 alpha dropP mw st pd dl gp w4 b ka = .ok s →
      s.train mode = .error .attributeError ∧
      s.eval = .error .attributeError) := by
  refine ⟨?_, ?_, ?_, ?_⟩
  · intro inF outF alpha dropP fifo mw w b ka mode
    exact ⟨rfl, rfl⟩
  · intro n d alpha mw w nb mode
    exact ⟨rfl, rfl⟩
  · intro inF outF alpha dropP el fifo mw w b ka s mode h
    simp only [MergedLinear.init] at h
    split at h
    · simp at h
    · split at h
      · simp at h
      · injection h with h2
        subst h2
        exact ⟨rfl, rfl⟩
  · intro ic oc kern alpha dropP mw st pd dl gp w4 b ka s mode h
    cases kern with
    | pair k1 k2 => simp [Conv2d.init] at h
    | int k =>
      simp only [Conv2d.init] at h
      injection h with h2
      subst h2
      exact ⟨rfl, rfl⟩

/-- Witness for C10: the MergedLinear and Conv2d hypotheses discharged at
concrete zero-rank constructions. -/
theorem c10_zero_rank_train_eval_attribute_error_witness :
    (MergedLinear.init 1 2 0 1 0 [true] false true ⟨2, 1, fun _ _ => 0⟩ none
        (fun _ _ => 0)).bind (fun s => s.train true) = .error .attributeError ∧
    (Conv2d.init 1 1 (.int 1) 0 1 0 true 1 0 1 1 (fun _ _ _ _ => 0) none
        (fun _ _ => 0)).bind (fun s => s.eval) = .error .attributeError := by
  constructor
  · exact (c10_zero_rank_train_eval_attribute_error.2.2.1 1 2 1 0 [true] false
      true ⟨2, 1, fun _ _ => 0⟩ none (fun _ _ => 0) _ true rfl).1
  · exact (c10_zero_rank_train_eval_attribute_error.2.2.2 1 1 (.int 1) 1 0 true
      1 0 1 1 (fun _ _ _ _ => 0) none (fun _ _ => 0) _ true rfl).2

/-- C9.  MergedLinear with mask [True, False] on out_features = 4 (two groups
of two channels), unmerged and activated with r > 0: for every input, the
forward output on the last two channels is bit-identical to the base linear
output (zero_pad scatters nothing there), and on the first two channels it is
the base output plus the scaled low-rank delta lora_B @ (lora_A @ dropout(x)). -/
theorem c9_grouped_mask_scatters_delta_only_into_enabled_channels
    (s : MergedLinear) (A B : Param) (ind : ℕ → Bool) (x : ℕ → ℚ)
    (hE : s.enable_lora = [true, false]) (hOut : s.out_features = 4)
    (hr : 0 < s.r) (hM : s.merged = false) (hAct : s.activated = true)
    (hA : s.lora_A = some A) (hB : s.lora_B = some B)
    (hInd : s.lora_ind = some ind) (hind : ind = mkLoraInd [true, false] 4)
    (hBrows : B.data.rows = 2) :
    ∃ y, s.forward x = .ok y ∧
      (y 2 = s.baseForward x 2 ∧ y 3 = s.baseForward x 3) ∧
      (∀ o, o < 2 → y o = s.baseForward x o +
        (sumTo B.data.cols (fun i => B.data.entry o i *
          sumTo A.data.cols (fun k => A.data.entry i k * s.lora_dropout x k)))
          * s.scaling) := by
  subst hind
  have hf : s.forward x = .ok (fun o => s.baseForward x o +
      zeroPadVec (mkLoraInd [true, false] 4)
        (conv1dVec B.data
          (fun i => sumTo A.data.cols (fun k => A.data.entry i k * s.lora_dropout x k))
          (sumEnable s.enable_lora)) o * s.scaling) := by
    rw [MergedLinear.forward, if_neg (by simp [hM, hAct])]
    simp only [hA, hB, hInd, getAttr, hr, if_pos, Except.bind, bind, pure, Except.pure]
  refine ⟨_, hf, ⟨?_, ?_⟩, ?_⟩
  · have h2 : mkLoraInd [true, false] 4 2 = false := by decide
    simp [zeroPadVec, h2]
  · have h3 : mkLoraInd [true, false] 4 3 = false := by decide
    simp [zeroPadVec, h3]
  · intro o ho
    interval_cases o
    · have h0 : mkLoraInd [true, false] 4 0 = true := by decide
      have hc : countTrueBelow (mkLoraInd [true, false] 4) 0 = 0 := by decide
      have hs : sumEnable s.enable_lora = 1 := by rw [hE]; decide
      simp [zeroPadVec, h0, hc, conv1dVec, hs, Nat.zero_div]
    · have h1 : mkLoraInd [true, false] 4 1 = true := by decide
      have hc : countTrueBelow (mkLoraInd [true, false] 4) 1 = 1 := by decide
      have hs : sumEnable s.enable_lora = 1 := by rw [hE]; decide
      simp [zeroPadVec, h1, hc, conv1dVec, hs, hBrows]

/-- Concrete lora_A for the C9 witness: shape (r * sum(mask), in_features) =
(1, 1). -/
def c9A : Param := ⟨⟨1, 1, fun _ _ => 1⟩, true⟩

/-- Concrete lora_B for the C9 witness: shape
(out_features / len(mask) * sum(mask), r) = (2, 1). -/
def c9B : Param := ⟨⟨2, 1, fun i _ => if i = 0 then 2 else 3⟩, true⟩

/-- A MergedLinear adapter configured as in C9: mask [True, False],
out_features = 4, r = 1, unmerged and activated. -/
def c9s : MergedLinear :=
  { in_features := 1, out_features := 4, enable_lora := [true, false],
    weight := ⟨⟨4, 1, fun _ _ => 0⟩, false⟩, bias := none, r := 1,
    lora_alpha := 1, lora_dropout := fun x => x, fan_in_fan_out := false,
    merge_weights := true, merged := false, activated := true,
    lora_A := some c9A, lora_B := some c9B,
    lora_ind := some (mkLoraInd [true, false] 4), scaling := 1 }

/-- Witness for C9 at the concrete adapter c9s and the constant input 1. -/
theorem c9_grouped_mask_witness :
    ∃ y, c9s.forward (fun _ => 1) = .ok y ∧
      (y 2 = c9s.baseForward (fun _ => 1) 2 ∧
       y 3 = c9s.baseForward (fun _ => 1) 3) ∧
      (∀ o, o < 2 → y o = c9s.baseForward (fun _ => 1) o +
        (sumTo c9B.data.cols (fun i => c9B.data.entry o i *
          sumTo c9A.data.cols
            (fun k => c9A.data.entry i k * c9s.lora_dropout (fun _ => 1) k)))
          * c9s.scaling) :=
  c9_grouped_mask_scatters_delta_only_into_enabled_channels c9s c9A c9B
    (mkLoraInd [true, false] 4) (fun _ => 1) rfl rfl (by decide) rfl rfl rfl rfl
    rfl rfl rfl
